import Mathlib

/-!
Verification of the drata-mcp repository: a shallow embedding of the
pagination layer (`src/drata_mcp/client.py`) and of the tool-layer logic
(`src/drata_mcp/server.py`), with theorems settling the spec claims.

Upstream JSON records are modelled as Lean structures.  A field read with
Python's one-argument `dict.get(key)` collapses "absent" and "null" to the
same value, so such fields are `Option`s.  A field read with a two-argument
`dict.get(key, default)` distinguishes "absent" (the default is substituted)
from "present but null" (Python returns `None`, on which a subsequent
attribute access or slice raises); such fields are modelled with `JField`.
-/

/-- Drata API max limit per request (`client.py`, `MAX_PAGE_SIZE = 50`). -/
def MAX_PAGE_SIZE : Nat := 50

/-- One upstream page response `{data: [...], total: N}`.  `total` is an
`Option` because `_paginate_all` reads it with `result.get("total", total)`,
keeping the previous value when the key is missing. -/
structure PageResponse (α : Type) where
  data : List α
  total : Option Nat
deriving DecidableEq

/-- The `while True` loop of `DrataClient._paginate_all` (client.py lines
84-99), with the upstream modelled as a function from the 1-based page
number to the response, and an explicit fuel bound (`none` means the fuel
ran out before the loop's own exit conditions fired).  State: current page
number, accumulated `all_data`, last seen `total`. -/
def paginateLoop {α : Type} (fetch : Nat → PageResponse α) :
    Nat → Nat → List α → Nat → Option (List α × Nat)
  | 0, _, _, _ => none
  | fuel + 1, page, allData, total =>
    let result := fetch page
    let data := result.data
    let total' := result.total.getD total
    let allData' := allData ++ data
    -- stop if we got fewer than the limit (last page)
    if data.length < MAX_PAGE_SIZE then some (allData', total')
    -- stop if we have all items (`len(all_data) >= total`)
    else if total' ≤ allData'.length then some (allData', total')
    else paginateLoop fetch fuel (page + 1) allData' total'

/-- `DrataClient._paginate_all`: start at page 1 with an empty accumulator
and `total = 0` (client.py lines 77-82). -/
def paginateAll {α : Type} (fetch : Nat → PageResponse α) (fuel : Nat) :
    Option (List α × Nat) :=
  paginateLoop fetch fuel 1 [] 0

theorem paginateLoop_succ {α : Type} (fetch : Nat → PageResponse α)
    (fuel page : Nat) (acc : List α) (tot : Nat) :
    paginateLoop fetch (fuel + 1) page acc tot =
      (if (fetch page).data.length < MAX_PAGE_SIZE then
        some (acc ++ (fetch page).data, (fetch page).total.getD tot)
      else if (fetch page).total.getD tot ≤ (acc ++ (fetch page).data).length then
        some (acc ++ (fetch page).data, (fetch page).total.getD tot)
      else paginateLoop fetch fuel (page + 1) (acc ++ (fetch page).data)
        ((fetch page).total.getD tot)) := rfl

/-- An upstream that serves a fixed sequence of pages (page `k` holds the
`k-1`-th list, pages past the end are empty) and always reports `total = T`. -/
def fetchFromPages {α : Type} (pages : List (List α)) (T : Nat) :
    Nat → PageResponse α :=
  fun page => ⟨pages.getD (page - 1) [], some T⟩

/-- Invariant lemma for the accumulation loop: if the remaining pages all
report total `T`, every page before the last is full, and the accumulator
plus the remaining pages hold exactly `T` records, the loop completes
within `rest.length` fetches and accumulates exactly `T` records. -/
theorem paginateLoop_exact {α : Type} (T : Nat) (fetch : Nat → PageResponse α) :
    ∀ (rest : List (List α)) (startPage : Nat) (acc : List α) (tot : Nat),
      rest ≠ [] →
      (∀ i, i < rest.length → fetch (startPage + i) = ⟨rest.getD i [], some T⟩) →
      (∀ i, i + 1 < rest.length → (rest.getD i []).length = MAX_PAGE_SIZE) →
      acc.length + (rest.map List.length).sum = T →
      ∃ l : List α,
        paginateLoop fetch rest.length startPage acc tot = some (l, T) ∧
        l.length = T := by
  intro rest
  induction rest with
  | nil => intro _ _ _ hne _ _ _; exact absurd rfl hne
  | cons p rest ih =>
    intro startPage acc tot _ hfetch hfull hsum
    have hf : fetch startPage = ⟨p, some T⟩ := by
      have h := hfetch 0 (by simp)
      simpa using h
    rw [List.length_cons, paginateLoop_succ, hf]
    simp only [Option.getD_some]
    cases rest with
    | nil =>
      have hlen : (acc ++ p).length = T := by
        simp only [List.map_cons, List.map_nil, List.sum_cons, List.sum_nil,
          Nat.add_zero] at hsum
        simpa [List.length_append] using hsum
      refine ⟨acc ++ p, ?_, hlen⟩
      by_cases h1 : p.length < MAX_PAGE_SIZE
      · rw [if_pos h1]
      · rw [if_neg h1, if_pos hlen.ge]
    | cons q rest' =>
      have hp : p.length = MAX_PAGE_SIZE := by
        have h := hfull 0 (by simp)
        simpa using h
      have hnotlt : ¬ p.length < MAX_PAGE_SIZE := by omega
      simp only [List.map_cons, List.sum_cons] at hsum
      by_cases hS : q.length + (rest'.map List.length).sum = 0
      · -- the remaining pages are all empty: the loop stops via
        -- `len(all_data) >= total` right after this page
        have hlen : (acc ++ p).length = T := by
          simp only [List.length_append]
          omega
        exact ⟨acc ++ p, by rw [if_neg hnotlt, if_pos hlen.ge], hlen⟩
      · -- more records remain: the loop continues to the next page
        have hcont : ¬ T ≤ (acc ++ p).length := by
          simp only [List.length_append]
          omega
        have hfetch' : ∀ i, i < (q :: rest').length →
            fetch (startPage + 1 + i) = ⟨(q :: rest').getD i [], some T⟩ := by
          intro i hi
          have h := hfetch (i + 1) (by simpa using Nat.succ_lt_succ hi)
          have e1 : startPage + (i + 1) = startPage + 1 + i := by omega
          have e2 : (p :: q :: rest').getD (i + 1) [] = (q :: rest').getD i [] := rfl
          rw [e1, e2] at h
          exact h
        have hfull' : ∀ i, i + 1 < (q :: rest').length →
            ((q :: rest').getD i []).length = MAX_PAGE_SIZE := by
          intro i hi
          have h := hfull (i + 1) (by simpa using Nat.succ_lt_succ hi)
          simpa using h
        have hsum' : (acc ++ p).length + ((q :: rest').map List.length).sum = T := by
          simp only [List.map_cons, List.sum_cons, List.length_append]
          omega
        obtain ⟨l, hl, hlen⟩ :=
          ih (startPage + 1) (acc ++ p) T (List.cons_ne_nil q rest') hfetch' hfull' hsum'
        refine ⟨l, ?_, hlen⟩
        rw [if_neg hnotlt, if_neg hcont]
        simpa using hl

/-- C1: for a full-collection fetch where the upstream reports `total = T`
on every page, every page before the last is full (`= MAX_PAGE_SIZE`), and
the pages jointly expose exactly `T` records, `_paginate_all` completes and
the accumulated record count equals `T`. -/
theorem paginate_all_count_eq_total {α : Type} (pages : List (List α)) (T : Nat)
    (hne : pages ≠ [])
    (hfull : ∀ i, i + 1 < pages.length → (pages.getD i []).length = MAX_PAGE_SIZE)
    (hsum : (pages.map List.length).sum = T) :
    ∃ l : List α,
      paginateAll (fetchFromPages pages T) pages.length = some (l, T) ∧
      l.length = T := by
  have hfetch : ∀ i, i < pages.length →
      fetchFromPages pages T (1 + i) = ⟨pages.getD i [], some T⟩ := by
    intro i _
    simp [fetchFromPages]
  exact paginateLoop_exact T (fetchFromPages pages T) pages 1 [] 0
    hne hfetch hfull (by simpa using hsum)

theorem paginate_all_count_eq_total_witness :
    ∃ l : List Nat,
      paginateAll (fetchFromPages [[7, 8, 9]] 3) 1 = some (l, 3) ∧ l.length = 3 :=
  paginate_all_count_eq_total [[7, 8, 9]] 3 (by simp)
    (by intro i hi; simp at hi) (by decide)

/-- Fuel sufficiency for the accumulation loop: as long as every upstream
page is within the page-size cap and always reports the fixed total `T`,
the loop exits within the fuel bound whenever `T ≤ acc.length + cap * fuel`
(every iteration that continues has appended a full page). -/
theorem paginateLoop_isSome {α : Type} (fetch : Nat → PageResponse α) (T : Nat)
    (hbound : ∀ p, (fetch p).data.length ≤ MAX_PAGE_SIZE)
    (htot : ∀ p, (fetch p).total = some T) :
    ∀ (fuel page : Nat) (acc : List α) (tot : Nat),
      T ≤ acc.length + MAX_PAGE_SIZE * fuel →
      ∃ res, paginateLoop fetch (fuel + 1) page acc tot = some res := by
  intro fuel
  induction fuel with
  | zero =>
    intro page acc tot hT
    rw [paginateLoop_succ]
    by_cases h1 : (fetch page).data.length < MAX_PAGE_SIZE
    · exact ⟨_, by rw [if_pos h1]⟩
    · have h2 : (fetch page).total.getD tot ≤ (acc ++ (fetch page).data).length := by
        rw [htot page]
        simp only [Option.getD_some, List.length_append]
        omega
      exact ⟨_, by rw [if_neg h1, if_pos h2]⟩
  | succ fuel ihf =>
    intro page acc tot hT
    rw [paginateLoop_succ]
    by_cases h1 : (fetch page).data.length < MAX_PAGE_SIZE
    · exact ⟨_, by rw [if_pos h1]⟩
    · by_cases h2 : (fetch page).total.getD tot ≤ (acc ++ (fetch page).data).length
      · exact ⟨_, by rw [if_neg h1, if_pos h2]⟩
      · obtain ⟨res, hres⟩ := ihf (page + 1) (acc ++ (fetch page).data)
          ((fetch page).total.getD tot) (by
            simp only [List.length_append]
            simp only [MAX_PAGE_SIZE] at h1 hT ⊢
            omega)
        exact ⟨res, by rw [if_neg h1, if_neg h2]; exact hres⟩

/-- C4: the full-collection fetch loop terminates whenever every upstream
page is within the `MAX_PAGE_SIZE` cap and the reported total is a fixed
`T` (fuel `T + 1` always suffices); moreover, an empty first page
terminates immediately with an empty result, a reported total of `0` with
a non-empty short first page terminates via the short-page condition, and
at any loop state a page returning exactly `0` records terminates the
loop at once. -/
theorem paginate_all_terminates {α : Type} :
    (∀ (fetch : Nat → PageResponse α) (T : Nat),
       (∀ p, (fetch p).data.length ≤ MAX_PAGE_SIZE) →
       (∀ p, (fetch p).total = some T) →
       ∃ res, paginateAll fetch (T + 1) = some res) ∧
    (∀ (fetch : Nat → PageResponse α) (T fuel : Nat),
       fetch 1 = ⟨[], some T⟩ →
       paginateAll fetch (fuel + 1) = some ([], T)) ∧
    (∀ (fetch : Nat → PageResponse α) (fuel : Nat),
       (fetch 1).data ≠ [] →
       (fetch 1).data.length < MAX_PAGE_SIZE →
       (fetch 1).total = some 0 →
       paginateAll fetch (fuel + 1) = some ((fetch 1).data, 0)) ∧
    (∀ (fetch : Nat → PageResponse α) (T page fuel : Nat) (acc : List α) (tot : Nat),
       fetch page = ⟨[], some T⟩ →
       paginateLoop fetch (fuel + 1) page acc tot = some (acc, T)) := by
  refine ⟨?_, ?_, ?_, ?_⟩
  · intro fetch T hbound htot
    exact paginateLoop_isSome fetch T hbound htot T 1 [] 0
      (by simp only [List.length_nil, MAX_PAGE_SIZE]; omega)
  · intro fetch T fuel h
    rw [paginateAll, paginateLoop_succ, h]
    simp [MAX_PAGE_SIZE]
  · intro fetch fuel _ hlt htot
    rw [paginateAll, paginateLoop_succ, if_pos hlt, htot]
    simp
  · intro fetch T page fuel acc tot h
    rw [paginateLoop_succ, h]
    simp [MAX_PAGE_SIZE]

theorem paginate_all_terminates_witness :
    ∃ res, paginateAll
      (fun k => if k = 1 then ⟨[3, 4], some 5⟩ else (⟨[], some 5⟩ : PageResponse Nat))
      (5 + 1) = some res :=
  (paginate_all_terminates (α := Nat)).1
    (fun k => if k = 1 then ⟨[3, 4], some 5⟩ else ⟨[], some 5⟩) 5
    (by intro p; by_cases h : p = 1 <;> simp [h, MAX_PAGE_SIZE])
    (by intro p; by_cases h : p = 1 <;> simp [h])

/-! ### Control status derivation (server.py `_get_control_status`) -/

/-- Python truthiness of an optional string value (`None`, a missing key
and the empty string are all falsy). -/
def truthyStr : Option String → Bool
  | none => false
  | some s => !s.isEmpty

/-- A control record as consumed by the tool layer.  The four flags are
read with one-argument `c.get(...)`, under which a missing key, `null` and
`False` are all falsy, so they are plain `Bool`s; `archivedAt` is checked
for truthiness, so it is an optional string. -/
structure Control where
  id : Option Nat
  name : Option String
  code : Option String
  description : Option String
  archivedAt : Option String
  isReady : Bool
  hasOwner : Bool
  isMonitored : Bool
  hasEvidence : Bool
  frameworkTags : List String
deriving DecidableEq

/-- `_get_control_status` (server.py lines 50-62): derive control status
from flags, first match wins. -/
def getControlStatus (c : Control) : String :=
  if truthyStr c.archivedAt then "ARCHIVED"
  else if !c.isReady then "NOT_READY"
  else if !c.hasOwner then "NO_OWNER"
  else if c.isMonitored && c.hasEvidence then "PASSING"
  else if !c.hasEvidence then "NEEDS_EVIDENCE"
  else "READY"

/-- C2: the control status derivation is a total function of the four
boolean flags plus the archival timestamp, evaluated in strict priority
order with the first match winning; in particular an archived, not-ready
control is `ARCHIVED`, never `NOT_READY`. -/
theorem control_status_priority (c : Control) :
    (truthyStr c.archivedAt = true → getControlStatus c = "ARCHIVED") ∧
    (truthyStr c.archivedAt = false → c.isReady = false →
       getControlStatus c = "NOT_READY") ∧
    (truthyStr c.archivedAt = false → c.isReady = true → c.hasOwner = false →
       getControlStatus c = "NO_OWNER") ∧
    (truthyStr c.archivedAt = false → c.isReady = true → c.hasOwner = true →
       c.isMonitored = true → c.hasEvidence = true →
       getControlStatus c = "PASSING") ∧
    (truthyStr c.archivedAt = false → c.isReady = true → c.hasOwner = true →
       c.hasEvidence = false → getControlStatus c = "NEEDS_EVIDENCE") ∧
    (truthyStr c.archivedAt = false → c.isReady = true → c.hasOwner = true →
       c.isMonitored = false → c.hasEvidence = true →
       getControlStatus c = "READY") ∧
    (truthyStr c.archivedAt = true → c.isReady = false →
       getControlStatus c = "ARCHIVED" ∧ getControlStatus c ≠ "NOT_READY") := by
  refine ⟨?_, ?_, ?_, ?_, ?_, ?_, ?_⟩ <;>
    intros <;> simp_all [getControlStatus]

theorem control_status_priority_witness :
    truthyStr (some "2024-01-01") = true ∧
    getControlStatus
      { id := some 1, name := some "c", code := some "DCF-1", description := none,
        archivedAt := some "2024-01-01", isReady := false, hasOwner := false,
        isMonitored := false, hasEvidence := false, frameworkTags := [] } = "ARCHIVED" :=
  ⟨by decide,
   (control_status_priority
      { id := some 1, name := some "c", code := some "DCF-1", description := none,
        archivedAt := some "2024-01-01", isReady := false, hasOwner := false,
        isMonitored := false, hasEvidence := false, frameworkTags := [] }).1 (by decide)⟩

/-! ### Upstream record model for the remaining tools -/

/-- A JSON field read through Python's two-argument `dict.get(key, default)`:
`absent` (key missing, the default gets substituted), `null` (key present
with value `None`, which the default does NOT mask) or a value. -/
inductive JField (α : Type) where
  | absent : JField α
  | null : JField α
  | val : α → JField α
deriving DecidableEq

/-- `d.get(key, default)`: `none` models Python `None` flowing out of the
lookup (only possible for a present-but-null field). -/
def JField.getOr {α : Type} : JField α → α → Option α
  | .absent, d => some d
  | .null, _ => none
  | .val a, _ => some a

/-- Python `s.startswith(pre)` on the character lists. -/
def startsWithChars : List Char → List Char → Bool
  | [], _ => true
  | _ :: _, [] => false
  | c :: cs, d :: ds => c == d && startsWithChars cs ds

/-- Python `s.startswith(pre)`. -/
def pyStartsWith (s pre : String) : Bool := startsWithChars pre.data s.data

/-- Python `s[:n]`. -/
def pySlice (s : String) (n : Nat) : String := ⟨s.data.take n⟩

/-- An embedded user record (`personnel["user"]`, `assignment["user"]`,
`device["user"]`). -/
structure PUser where
  email : Option String
  firstName : Option String
  lastName : Option String
  name : Option String
deriving DecidableEq

/-- A `{id, code}` entry of a monitor's `controls` list. -/
structure ControlRef where
  id : Option Nat
  code : Option String
deriving DecidableEq

/-- A monitor (automated test) record.  `description` is read with
`m.get("description", "")`, so it distinguishes absent from null. -/
structure Monitor where
  id : Option Nat
  name : Option String
  description : JField String
  checkResultStatus : Option String
  checkStatus : Option String
  priority : Option String
  lastCheck : Option String
  controls : List ControlRef
deriving DecidableEq

/-- A personnel record.  All fields the tools read use one-argument
`p.get(...)` (with `or`-defaults), under which absent and null coincide. -/
structure Personnel where
  id : Option Nat
  user : Option PUser
  employmentStatus : Option String
  devicesCount : Option Nat
  devicesFailingComplianceCount : Option Nat
  startDate : Option String
deriving DecidableEq

/-- A `{value: ...}` entry of a connection's `providerTypes` list. -/
structure ProviderType where
  value : Option String
deriving DecidableEq

/-- A connection (integration) record. -/
structure Connection where
  id : Option Nat
  clientType : Option String
  state : Option String
  connected : Bool
  connectedAt : Option String
  failedAt : Option String
  providerTypes : List ProviderType
deriving DecidableEq

/-! ### get_compliance_summary (server.py lines 731-798) -/

/-- The structured record returned by `get_compliance_summary`, flattened
(`summary.monitors.total` becomes `monitors_total`, and so on). -/
structure ComplianceSummary where
  status : String
  total_issues : Nat
  controls_total : Nat
  monitors_total : Nat
  monitors_passed : Nat
  monitors_failed : Nat
  monitors_status : String
  personnel_total : Nat
  personnel_with_device_issues : Nat
  personnel_status : String
  connections_total : Nat
  connections_active : Nat
  connections_failed : Nat
  connections_status : String
  recommendation : String
deriving DecidableEq

/-- `_get_recommendation` (server.py lines 790-798). -/
def getRecommendation (failed_monitors personnel_issues failed_connections : Nat) :
    String :=
  if failed_monitors > 0 then
    "Priority: Investigate " ++ toString failed_monitors ++
      " failing monitors - automated evidence collection may be broken"
  else if failed_connections > 0 then
    "Priority: Fix " ++ toString failed_connections ++
      " failed connections - integrations are not syncing"
  else if personnel_issues > 0 then
    "Action needed: " ++ toString personnel_issues ++
      " personnel have device compliance issues"
  else "All systems compliant - ready for audit"

/-- `get_compliance_summary`, as a function of the four single-page
responses it fetches (each requested with `limit=50`). -/
def getComplianceSummary (controls : PageResponse Control)
    (monitors : PageResponse Monitor) (personnel : PageResponse Personnel)
    (connections : PageResponse Connection) : ComplianceSummary :=
  let monitorsData := monitors.data
  let failedMonitors :=
    (monitorsData.filter (fun m => m.checkResultStatus == some "FAILED")).length
  let passedMonitors :=
    (monitorsData.filter (fun m => m.checkResultStatus == some "PASSED")).length
  let personnelData := personnel.data
  let currentPersonnel :=
    (personnelData.filter
      (fun p => pyStartsWith (p.employmentStatus.getD "") "CURRENT")).length
  let personnelWithIssues :=
    (personnelData.filter (fun p =>
      decide (0 < p.devicesFailingComplianceCount.getD 0) &&
      pyStartsWith (p.employmentStatus.getD "") "CURRENT")).length
  let connectionsData := connections.data
  let activeConnections :=
    (connectionsData.filter (fun c => c.state == some "ACTIVE")).length
  let failedConnections :=
    (connectionsData.filter (fun c => truthyStr c.failedAt)).length
  let totalIssues := failedMonitors + personnelWithIssues + failedConnections
  { status := if totalIssues > 0 then "NEEDS_ATTENTION" else "COMPLIANT"
    total_issues := totalIssues
    controls_total := controls.total.getD 0
    monitors_total := monitorsData.length
    monitors_passed := passedMonitors
    monitors_failed := failedMonitors
    monitors_status := if failedMonitors > 0 then "🔴 CRITICAL" else "🟢 OK"
    personnel_total := currentPersonnel
    personnel_with_device_issues := personnelWithIssues
    personnel_status := if personnelWithIssues > 0 then "🟠 WARNING" else "🟢 OK"
    connections_total := connectionsData.length
    connections_active := activeConnections
    connections_failed := failedConnections
    connections_status := if failedConnections > 0 then "🔴 CRITICAL" else "🟢 OK"
    recommendation := getRecommendation failedMonitors personnelWithIssues
      failedConnections }

/-- C3: `get_compliance_summary` reports `total_issues` equal to
(# monitors with `checkResultStatus == "FAILED"`) + (# personnel that are
current — employment status starts with `CURRENT` — and have a failing
device count > 0) + (# connections with a truthy failure timestamp), and
reports `status = "COMPLIANT"` iff that sum is `0`. -/
theorem compliance_summary_exact (controls : PageResponse Control)
    (monitors : PageResponse Monitor) (personnel : PageResponse Personnel)
    (connections : PageResponse Connection) :
    (getComplianceSummary controls monitors personnel connections).total_issues =
      (monitors.data.filter (fun m => m.checkResultStatus == some "FAILED")).length +
      (personnel.data.filter (fun p =>
        pyStartsWith (p.employmentStatus.getD "") "CURRENT" &&
        decide (0 < p.devicesFailingComplianceCount.getD 0))).length +
      (connections.data.filter (fun c => truthyStr c.failedAt)).length ∧
    ((getComplianceSummary controls monitors personnel connections).status =
        "COMPLIANT" ↔
      (getComplianceSummary controls monitors personnel connections).total_issues
        = 0) := by
  have key : ∀ n : Nat,
      ((if n > 0 then "NEEDS_ATTENTION" else "COMPLIANT") = "COMPLIANT" ↔ n = 0) := by
    intro n
    rcases Nat.eq_zero_or_pos n with h | h
    · subst h; simp
    · rw [if_pos h]
      constructor
      · intro hc; exact absurd hc (by decide)
      · intro hc; omega
  constructor
  · simp only [getComplianceSummary]
    have hflip : personnel.data.filter (fun p =>
        decide (0 < p.devicesFailingComplianceCount.getD 0) &&
        pyStartsWith (p.employmentStatus.getD "") "CURRENT") =
      personnel.data.filter (fun p =>
        pyStartsWith (p.employmentStatus.getD "") "CURRENT" &&
        decide (0 < p.devicesFailingComplianceCount.getD 0)) := by
      apply List.filter_congr
      intro p _
      exact Bool.and_comm _ _
    rw [hflip]
  · simp only [getComplianceSummary]
    exact key _

/-! ### list_controls (server.py lines 65-115) -/

/-- The per-control projection `list_controls` returns. -/
structure EnrichedControl where
  id : Option Nat
  name : Option String
  code : Option String
  status : String
  isMonitored : Bool
  hasEvidence : Bool
  hasOwner : Bool
  frameworks : List String
deriving DecidableEq

def enrichControl (c : Control) : EnrichedControl :=
  { id := c.id, name := c.name, code := c.code, status := getControlStatus c,
    isMonitored := c.isMonitored, hasEvidence := c.hasEvidence,
    hasOwner := c.hasOwner, frameworks := c.frameworkTags }

/-- The enrichment loop of `list_controls` (server.py lines 86-99): skip
(`continue`) records whose derived status is PASSING, READY or ARCHIVED
when `only_issues` is set. -/
def enrichControls (only_issues : Bool) : List Control → List EnrichedControl
  | [] => []
  | c :: rest =>
    let status := getControlStatus c
    if only_issues &&
        (status == "PASSING" || status == "READY" || status == "ARCHIVED") then
      enrichControls only_issues rest
    else
      enrichControl c :: enrichControls only_issues rest

/-- The structured record returned by `list_controls` (summary flattened). -/
structure ListControlsResult where
  total : Nat
  showing : Nat
  summary_not_ready : Nat
  summary_no_owner : Nat
  summary_needs_evidence : Nat
  controls : List EnrichedControl
deriving DecidableEq

/-- `list_controls`, as a function of the combined full-collection fetch
result. -/
def listControlsTool (resp : PageResponse Control) (only_issues : Bool) :
    ListControlsResult :=
  let controls := resp.data
  let enriched := enrichControls only_issues controls
  { total := resp.total.getD controls.length
    showing := enriched.length
    summary_not_ready :=
      (enriched.filter (fun e => e.status == "NOT_READY")).length
    summary_no_owner :=
      (enriched.filter (fun e => e.status == "NO_OWNER")).length
    summary_needs_evidence :=
      (enriched.filter (fun e => e.status == "NEEDS_EVIDENCE")).length
    controls := enriched }

/-- The spec's notion of an "issue" control: derived status NOT_READY,
NO_OWNER or NEEDS_EVIDENCE. -/
def isIssueStatus (s : String) : Bool :=
  s == "NOT_READY" || s == "NO_OWNER" || s == "NEEDS_EVIDENCE"

/-- The derived control status is always one of the six statuses. -/
theorem getControlStatus_cases (c : Control) :
    getControlStatus c = "ARCHIVED" ∨ getControlStatus c = "NOT_READY" ∨
    getControlStatus c = "NO_OWNER" ∨ getControlStatus c = "PASSING" ∨
    getControlStatus c = "NEEDS_EVIDENCE" ∨ getControlStatus c = "READY" := by
  unfold getControlStatus
  split_ifs <;> simp

/-- On derived statuses, being excluded from the issue view (PASSING,
READY or ARCHIVED) is exactly not being an issue status. -/
theorem excluded_eq_not_issue (c : Control) :
    (getControlStatus c == "PASSING" || getControlStatus c == "READY" ||
      getControlStatus c == "ARCHIVED") = !(isIssueStatus (getControlStatus c)) := by
  rcases getControlStatus_cases c with h | h | h | h | h | h <;> rw [h] <;> decide

theorem isIssueStatus_ne (s : String) (h : isIssueStatus s = true) :
    s ≠ "PASSING" ∧ s ≠ "READY" ∧ s ≠ "ARCHIVED" := by
  simp only [isIssueStatus, Bool.or_eq_true, beq_iff_eq] at h
  rcases h with (h | h) | h <;> subst h <;> exact ⟨by decide, by decide, by decide⟩

/-- With `only_issues=True`, the enrichment loop keeps exactly the records
with an issue status. -/
theorem enrichControls_true_eq_filter (l : List Control) :
    enrichControls true l =
      (l.filter (fun c => isIssueStatus (getControlStatus c))).map enrichControl := by
  induction l with
  | nil => rfl
  | cons c rest ih =>
    simp only [enrichControls, Bool.true_and, excluded_eq_not_issue c,
      List.filter_cons]
    by_cases h : isIssueStatus (getControlStatus c)
    · simp [h, ih]
    · simp [h, ih]

/-- C8: `list_controls(only_issues=True)` returns exactly the records whose
derived status is NOT_READY, NO_OWNER or NEEDS_EVIDENCE (never PASSING,
READY or ARCHIVED), and the summary counts count exactly those statuses
among the returned records. -/
theorem list_controls_only_issues_exact (resp : PageResponse Control) :
    (listControlsTool resp true).controls =
      (resp.data.filter (fun c => isIssueStatus (getControlStatus c))).map
        enrichControl ∧
    (∀ e ∈ (listControlsTool resp true).controls,
       e.status ≠ "PASSING" ∧ e.status ≠ "READY" ∧ e.status ≠ "ARCHIVED" ∧
       isIssueStatus e.status = true) ∧
    (listControlsTool resp true).summary_not_ready =
      ((listControlsTool resp true).controls.filter
        (fun e => e.status == "NOT_READY")).length ∧
    (listControlsTool resp true).summary_no_owner =
      ((listControlsTool resp true).controls.filter
        (fun e => e.status == "NO_OWNER")).length ∧
    (listControlsTool resp true).summary_needs_evidence =
      ((listControlsTool resp true).controls.filter
        (fun e => e.status == "NEEDS_EVIDENCE")).length := by
  have hmain : (listControlsTool resp true).controls =
      (resp.data.filter (fun c => isIssueStatus (getControlStatus c))).map
        enrichControl := by
    simp only [listControlsTool]
    exact enrichControls_true_eq_filter _
  refine ⟨hmain, ?_, rfl, rfl, rfl⟩
  intro e he
  rw [hmain] at he
  obtain ⟨c, hc, rfl⟩ := List.mem_map.1 he
  have hissue : isIssueStatus (getControlStatus c) = true :=
    (List.mem_filter.1 hc).2
  have hne := isIssueStatus_ne _ hissue
  exact ⟨hne.1, hne.2.1, hne.2.2, hissue⟩

def cPassing : Control :=
  { id := some 1, name := some "ok", code := some "DCF-1", description := none,
    archivedAt := none, isReady := true, hasOwner := true, isMonitored := true,
    hasEvidence := true, frameworkTags := [] }

def cNotReady : Control :=
  { id := some 2, name := some "bad", code := some "DCF-2", description := none,
    archivedAt := none, isReady := false, hasOwner := false, isMonitored := false,
    hasEvidence := false, frameworkTags := [] }

theorem list_controls_only_issues_exact_witness :
    enrichControl cNotReady ∈
      (listControlsTool ⟨[cPassing, cNotReady], some 2⟩ true).controls ∧
    (enrichControl cNotReady).status ≠ "PASSING" :=
  ⟨by decide,
   ((list_controls_only_issues_exact ⟨[cPassing, cNotReady], some 2⟩).2.1
      (enrichControl cNotReady) (by decide)).1⟩

/-! ### get_control_details (server.py lines 118-169) -/

/-- The upstream as seen by `get_control_details`: the first page returned
by a control search (`client.list_controls(limit=50, search=q)`) for a
query string `q`, and the monitor pages (`page` is 1-based). -/
structure Upstream where
  controlSearchPage : String → PageResponse Control
  monitorPage : Nat → PageResponse Monitor

/-- `DrataClient.list_monitors` (client.py lines 155-171): one SINGLE page. -/
def clientListMonitors (u : Upstream) (page : Nat) : PageResponse Monitor :=
  u.monitorPage page

/-- `DrataClient.list_all_monitors` (client.py lines 173-185): ALL pages,
via `_paginate_all`. -/
def clientListAllMonitors (u : Upstream) (fuel : Nat) :
    Option (List Monitor × Nat) :=
  paginateAll u.monitorPage fuel

/-- The exact-match scan of `get_control_details` (server.py lines 135-139). -/
def findExactControl (code : String) : List Control → Option Control
  | [] => none
  | c :: rest =>
    if c.code == some code then some c else findExactControl code rest

/-- `[c.get("code") for c in m.get("controls", [])]`. -/
def monitorControlCodes (m : Monitor) : List (Option String) :=
  m.controls.map ControlRef.code

/-- The per-monitor projection in `linked_monitors`. -/
structure LinkedMonitor where
  id : Option Nat
  name : Option String
  status : Option String
  priority : Option String
deriving DecidableEq

def mkLinkedMonitor (m : Monitor) : LinkedMonitor :=
  { id := m.id, name := m.name, status := m.checkResultStatus,
    priority := m.priority }

/-- The record `get_control_details` returns when the control is found. -/
structure ControlDetails where
  id : Option Nat
  name : Option String
  code : Option String
  status : String
  description : Option String
  isMonitored : Bool
  hasEvidence : Bool
  hasOwner : Bool
  isReady : Bool
  frameworks : List String
  linked_monitors : List LinkedMonitor
deriving DecidableEq

/-- `get_control_details` either returns the detail record or a normal
result record carrying an `error` field (never an exception). -/
inductive ControlDetailsResult where
  | found : ControlDetails → ControlDetailsResult
  | errorResult : String → ControlDetailsResult
deriving DecidableEq

def buildControlDetails (u : Upstream) (control_code : String)
    (control : Control) : ControlDetails :=
  let monitorsResult := clientListMonitors u 1
  { id := control.id, name := control.name, code := control.code,
    status := getControlStatus control, description := control.description,
    isMonitored := control.isMonitored, hasEvidence := control.hasEvidence,
    hasOwner := control.hasOwner, isReady := control.isReady,
    frameworks := control.frameworkTags,
    linked_monitors :=
      (monitorsResult.data.filter
        (fun m => (monitorControlCodes m).contains (some control_code))).map
        mkLinkedMonitor }

/-- `get_control_details(control_code)`: single-page search by code, exact
match, then a single-page monitor fetch (`client.list_monitors(limit=50)`,
server.py line 145) cross-referenced by control code. -/
def getControlDetails (u : Upstream) (control_code : String) :
    ControlDetailsResult :=
  let result := u.controlSearchPage control_code
  match findExactControl control_code result.data with
  | none => .errorResult ("Control " ++ control_code ++ " not found")
  | some control => .found (buildControlDetails u control_code control)

theorem findExactControl_spec (code : String) :
    ∀ (l : List Control) (c : Control), findExactControl code l = some c →
      c ∈ l ∧ c.code = some code := by
  intro l
  induction l with
  | nil => intro c h; cases h
  | cons a rest ih =>
    intro c h
    simp only [findExactControl] at h
    by_cases ha : (a.code == some code) = true
    · rw [if_pos ha] at h
      cases h
      exact ⟨List.mem_cons_self a rest, beq_iff_eq.1 ha⟩
    · rw [if_neg ha] at h
      obtain ⟨hmem, hcode⟩ := ih c h
      exact ⟨List.mem_cons_of_mem a hmem, hcode⟩

def blankMonitor : Monitor :=
  { id := some 0, name := some "blank", description := .val "",
    checkResultStatus := some "PASSED", checkStatus := none, priority := none,
    lastCheck := none, controls := [] }

def matchMonitor : Monitor :=
  { id := some 99, name := some "match", description := .val "",
    checkResultStatus := some "FAILED", checkStatus := none, priority := none,
    lastCheck := none, controls := [{ id := some 1, code := some "DCF-1" }] }

/-- Fifty monitors without the code on page 1 (a full page, so the
full-collection fetch would continue), one matching monitor on page 2. -/
def demoUpstream : Upstream :=
  { controlSearchPage := fun _ => ⟨[cPassing], some 1⟩,
    monitorPage := fun p =>
      if p = 1 then ⟨List.replicate 50 blankMonitor, some 51⟩
      else if p = 2 then ⟨[matchMonitor], some 51⟩
      else ⟨[], some 51⟩ }

def resultLinkedMonitors : ControlDetailsResult → Option (List LinkedMonitor)
  | .found d => some d.linked_monitors
  | .errorResult _ => none

/-- C5 counterexample: `get_control_details` does NOT perform a full
(auto-paginated) monitor fetch.  With a matching monitor on page 2 of the
monitors collection, the tool returns no linked monitors, although the
full-collection fetch retrieves that monitor and its control-code list
contains the code. -/
theorem get_control_details_not_full_fetch_cex :
    resultLinkedMonitors (getControlDetails demoUpstream "DCF-1") = some [] ∧
    clientListAllMonitors demoUpstream 2 =
      some (List.replicate 50 blankMonitor ++ [matchMonitor], 51) ∧
    matchMonitor ∈ (List.replicate 50 blankMonitor ++ [matchMonitor]) ∧
    (monitorControlCodes matchMonitor).contains (some "DCF-1") = true := by
  refine ⟨by decide, by decide, by decide, by decide⟩

/-- C5 (amended): `get_control_details(code)` performs a single-page search
by code followed by a single-page monitor fetch (the first monitor page);
it selects the exact match on code among the search results,
cross-references every monitor of that first page whose associated-control
code list contains the code, and when no exact match exists it returns a
normal result record carrying an error message rather than raising. -/
theorem get_control_details_spec (u : Upstream) (code : String) :
    (findExactControl code (u.controlSearchPage code).data = none →
       getControlDetails u code =
         .errorResult ("Control " ++ code ++ " not found")) ∧
    (∀ c, findExactControl code (u.controlSearchPage code).data = some c →
       c ∈ (u.controlSearchPage code).data ∧ c.code = some code ∧
       getControlDetails u code = .found (buildControlDetails u code c) ∧
       (buildControlDetails u code c).linked_monitors =
         ((clientListMonitors u 1).data.filter
           (fun m => (monitorControlCodes m).contains (some code))).map
           mkLinkedMonitor) := by
  constructor
  · intro h
    simp only [getControlDetails, h]
  · intro c h
    obtain ⟨hmem, hcode⟩ := findExactControl_spec code _ c h
    refine ⟨hmem, hcode, ?_, rfl⟩
    simp only [getControlDetails, h]

theorem get_control_details_spec_witness :
    getControlDetails demoUpstream "DCF-1" =
      .found (buildControlDetails demoUpstream "DCF-1" cPassing) :=
  ((get_control_details_spec demoUpstream "DCF-1").2 cPassing (by decide)).2.2.1

/-! ### Single-page fetch parameters (client.py) -/

/-- The `page`/`limit` query parameters of a single-page fetch. -/
structure PageParams where
  page : Nat
  limit : Nat
deriving DecidableEq

/-- `DrataClient.list_controls` (client.py line 122): limit capped with
`min(limit, MAX_PAGE_SIZE)`. -/
def listControlsParams (page limit : Nat) : PageParams :=
  ⟨page, min limit MAX_PAGE_SIZE⟩

/-- `DrataClient.list_monitors` (client.py line 168): limit capped. -/
def listMonitorsParams (page limit : Nat) : PageParams :=
  ⟨page, min limit MAX_PAGE_SIZE⟩

/-- `DrataClient.list_personnel` (client.py line 206): limit capped. -/
def listPersonnelParams (page limit : Nat) : PageParams :=
  ⟨page, min limit MAX_PAGE_SIZE⟩

/-- `DrataClient.list_policies` (client.py line 244): limit passed through
unmodified (default 100). -/
def listPoliciesParams (page limit : Nat) : PageParams := ⟨page, limit⟩

/-- The query parameters of `DrataClient.list_user_policies`. -/
structure UserPolicyParams where
  page : Nat
  limit : Nat
  acknowledged : Option String
deriving DecidableEq

/-- `DrataClient.list_user_policies` (client.py lines 264-267): limit
passed through; the `acknowledged` boolean is serialized as a lowercase
string literal when present. -/
def listUserPoliciesParams (page limit : Nat) (acknowledged : Option Bool) :
    UserPolicyParams :=
  ⟨page, limit, acknowledged.map (fun b => if b then "true" else "false")⟩

/-- `DrataClient.list_connections` (client.py line 277): limit passed
through unmodified. -/
def listConnectionsParams (page limit : Nat) : PageParams := ⟨page, limit⟩

/-- `DrataClient.list_vendors` (client.py line 288). -/
def listVendorsParams (page limit : Nat) : PageParams := ⟨page, limit⟩

/-- `DrataClient.list_devices` (client.py line 303). -/
def listDevicesParams (page limit : Nat) : PageParams := ⟨page, limit⟩

/-- `DrataClient.list_assets` (client.py line 314). -/
def listAssetsParams (page limit : Nat) : PageParams := ⟨page, limit⟩

/-- `DrataClient.list_events` (client.py line 332). -/
def listEventsParams (page limit : Nat) : PageParams := ⟨page, limit⟩

/-- C6 counterexample: NOT every single-page fetch caps the requested
limit client-side.  `DrataClient.list_policies` with its default
`limit=100` sends `limit=100` to the remote API, exceeding
`MAX_PAGE_SIZE`; `list_connections`, `list_vendors` and `list_devices`
behave the same way. -/
theorem limit_cap_cex :
    (listPoliciesParams 1 100).limit = 100 ∧
    ¬ (listPoliciesParams 1 100).limit ≤ MAX_PAGE_SIZE ∧
    (listConnectionsParams 1 100).limit = 100 ∧
    (listVendorsParams 1 100).limit = 100 ∧
    (listDevicesParams 1 100).limit = 100 := by
  decide

/-- C6 (amended): the controls, monitors and personnel single-page fetches
cap the requested limit client-side at `MAX_PAGE_SIZE` (a request for more
is silently truncated to the cap, never rejected), while the policies,
user-policies, connections, vendors, devices, assets and events
single-page fetches send the requested limit through unmodified. -/
theorem limit_cap_spec (page limit : Nat) :
    (listControlsParams page limit).limit = min limit MAX_PAGE_SIZE ∧
    (listMonitorsParams page limit).limit = min limit MAX_PAGE_SIZE ∧
    (listPersonnelParams page limit).limit = min limit MAX_PAGE_SIZE ∧
    (listControlsParams page limit).limit ≤ MAX_PAGE_SIZE ∧
    (MAX_PAGE_SIZE < limit →
       (listControlsParams page limit).limit = MAX_PAGE_SIZE ∧
       (listMonitorsParams page limit).limit = MAX_PAGE_SIZE ∧
       (listPersonnelParams page limit).limit = MAX_PAGE_SIZE) ∧
    (listPoliciesParams page limit).limit = limit ∧
    (listUserPoliciesParams page limit (some false)).limit = limit ∧
    (listConnectionsParams page limit).limit = limit ∧
    (listVendorsParams page limit).limit = limit ∧
    (listDevicesParams page limit).limit = limit ∧
    (listAssetsParams page limit).limit = limit ∧
    (listEventsParams page limit).limit = limit := by
  refine ⟨rfl, rfl, rfl, Nat.min_le_right _ _, ?_, rfl, rfl, rfl, rfl, rfl,
    rfl, rfl⟩
  intro h
  have hmin : min limit MAX_PAGE_SIZE = MAX_PAGE_SIZE := Nat.min_eq_right h.le
  exact ⟨hmin, hmin, hmin⟩

theorem limit_cap_spec_witness :
    MAX_PAGE_SIZE < 100 ∧ (listControlsParams 1 100).limit = MAX_PAGE_SIZE :=
  ⟨by decide, ((limit_cap_spec 1 100).2.2.2.2.1 (by decide)).1⟩

/-! ### Remaining records and bounded single-page tools (server.py) -/

structure Policy where
  id : Option Nat
  name : Option String
  version : Option Nat
  status : Option String
  updatedAt : Option String
  publishedAt : Option String
deriving DecidableEq

structure Vendor where
  id : Option Nat
  name : Option String
  website : Option String
  status : Option String
  riskLevel : Option String
  category : Option String
deriving DecidableEq

/-- A device record; `user` is both truthiness-guarded and projected, so a
missing, null or falsy user is collapsed to `none`. -/
structure Device where
  id : Option Nat
  name : Option String
  serialNumber : Option String
  platform : Option String
  osVersion : Option String
  user : Option PUser
deriving DecidableEq

/-- A user-policy assignment.  `policy` and `user` are read with
`a.get("policy", {})` / `a.get("user", {})`, so they distinguish absent
(the `{}` default is substituted) from present-but-null. -/
structure UserPolicyAssignment where
  id : Option Nat
  policy : JField Policy
  user : JField PUser
  createdAt : Option String
deriving DecidableEq

/-- The `{}` default of `a.get("policy", {})`. -/
def emptyPolicy : Policy :=
  { id := none, name := none, version := none, status := none,
    updatedAt := none, publishedAt := none }

/-- The `{}` default of `a.get("user", {})`. -/
def emptyPUser : PUser :=
  { email := none, firstName := none, lastName := none, name := none }

structure PolicyEntry where
  id : Option Nat
  name : Option String
  version : Option Nat
  status : Option String
  lastUpdatedAt : Option String
  publishedAt : Option String
deriving DecidableEq

structure PoliciesResult where
  total : Nat
  policies : List PolicyEntry
deriving DecidableEq

/-- `list_policies` tool (server.py lines 443-470): accepts `limit` but
calls `client.list_policies(limit=50)`.  The client is modelled as a
function from the issued query parameters to the response. -/
def listPoliciesTool (limit : Nat) (api : PageParams → PageResponse Policy) :
    PoliciesResult :=
  let result := api (listPoliciesParams 1 50)
  let policies := result.data
  { total := result.total.getD policies.length
    policies := policies.map (fun p =>
      { id := p.id, name := p.name, version := p.version, status := p.status,
        lastUpdatedAt := p.updatedAt, publishedAt := p.publishedAt }) }

structure PendingEntry where
  id : Option Nat
  policyName : Option String
  policyVersion : Option Nat
  userEmail : Option String
  userName : Option String
  assignedAt : Option String
deriving DecidableEq

/-- One element of the `pending` comprehension
(server.py lines 491-499): `a.get("policy", {}).get("name")` raises
`AttributeError` when `policy` is present but null, and likewise for
`user`. -/
def pendingEntry (a : UserPolicyAssignment) : Except String PendingEntry :=
  match a.policy.getOr emptyPolicy with
  | none => .error "AttributeError: NoneType object has no attribute get"
  | some pol =>
    match a.user.getOr emptyPUser with
    | none => .error "AttributeError: NoneType object has no attribute get"
    | some usr =>
      .ok { id := a.id, policyName := pol.name, policyVersion := pol.version,
            userEmail := usr.email, userName := usr.name,
            assignedAt := a.createdAt }

/-- The list comprehension over assignments; the first raising element
aborts the tool. -/
def buildPendingEntries :
    List UserPolicyAssignment → Except String (List PendingEntry)
  | [] => .ok []
  | a :: rest => do
    let e ← pendingEntry a
    let es ← buildPendingEntries rest
    pure (e :: es)

structure PendingResult where
  total_pending : Nat
  message : String
  pending : List PendingEntry
deriving DecidableEq

/-- `list_pending_policy_acknowledgments` tool (server.py lines 473-501):
accepts `limit` but calls `client.list_user_policies(limit=50,
acknowledged=False)`. -/
def listPendingPolicyAcknowledgmentsTool (limit : Nat)
    (api : UserPolicyParams → PageResponse UserPolicyAssignment) :
    Except String PendingResult := do
  let result := api (listUserPoliciesParams 1 50 (some false))
  let assignments := result.data
  let pending ← buildPendingEntries assignments
  pure { total_pending := result.total.getD assignments.length
         message :=
           if assignments.isEmpty then "✅ All policies acknowledged"
           else "📋 " ++ toString assignments.length ++
             " policy acknowledgments pending"
         pending := pending }

structure ConnectionEntry where
  id : Option Nat
  type : Option String
  state : Option String
  connected : Bool
  connectedAt : Option String
  failedAt : Option String
  providerTypes : List (Option String)
deriving DecidableEq

structure ConnectionsResult where
  total : Nat
  summary_active : Nat
  summary_with_failures : Nat
  connections : List ConnectionEntry
deriving DecidableEq

/-- `list_connections` tool (server.py lines 507-543): accepts `limit` but
calls `client.list_connections(limit=50)`. -/
def listConnectionsTool (limit : Nat)
    (api : PageParams → PageResponse Connection) : ConnectionsResult :=
  let result := api (listConnectionsParams 1 50)
  let connections := result.data
  let active := (connections.filter (fun c => c.state == some "ACTIVE")).length
  let failed := (connections.filter (fun c => truthyStr c.failedAt)).length
  { total := result.total.getD connections.length
    summary_active := active
    summary_with_failures := failed
    connections := connections.map (fun c =>
      { id := c.id, type := c.clientType, state := c.state,
        connected := c.connected, connectedAt := c.connectedAt,
        failedAt := c.failedAt,
        providerTypes := c.providerTypes.map ProviderType.value }) }

structure VendorsResult where
  total : Nat
  vendors : List Vendor
deriving DecidableEq

/-- `list_vendors` tool (server.py lines 549-576): accepts `limit` but
calls `client.list_vendors(limit=50)`; the per-vendor projection keeps the
same six fields. -/
def listVendorsTool (limit : Nat) (api : PageParams → PageResponse Vendor) :
    VendorsResult :=
  let result := api (listVendorsParams 1 50)
  let vendors := result.data
  { total := result.total.getD vendors.length
    vendors := vendors.map (fun v =>
      { id := v.id, name := v.name, website := v.website, status := v.status,
        riskLevel := v.riskLevel, category := v.category }) }

structure DeviceEntry where
  id : Option Nat
  name : Option String
  serialNumber : Option String
  platform : Option String
  osVersion : Option String
  owner : Option String
deriving DecidableEq

structure DevicesResult where
  total : Nat
  devices : List DeviceEntry
deriving DecidableEq

/-- `list_devices` tool (server.py lines 582-609): accepts `limit` but
calls `client.list_devices(limit=50)`; `owner` is the user's email when a
truthy user record is present. -/
def listDevicesTool (limit : Nat) (api : PageParams → PageResponse Device) :
    DevicesResult :=
  let result := api (listDevicesParams 1 50)
  let devices := result.data
  { total := result.total.getD devices.length
    devices := devices.map (fun d =>
      { id := d.id, name := d.name, serialNumber := d.serialNumber,
        platform := d.platform, osVersion := d.osVersion,
        owner := d.user.bind PUser.email }) }

/-- C10: the `limit` argument of `list_policies`,
`list_pending_policy_acknowledgments`, `list_connections`, `list_vendors`
and `list_devices` has no effect: each tool issues its client call with
`limit` fixed at 50 and returns the same result as with `limit = 50`. -/
theorem tool_limit_ignored (limit : Nat) :
    (∀ api, listPoliciesTool limit api = listPoliciesTool 50 api) ∧
    (∀ api, listPendingPolicyAcknowledgmentsTool limit api =
       listPendingPolicyAcknowledgmentsTool 50 api) ∧
    (∀ api, listConnectionsTool limit api = listConnectionsTool 50 api) ∧
    (∀ api, listVendorsTool limit api = listVendorsTool 50 api) ∧
    (∀ api, listDevicesTool limit api = listDevicesTool 50 api) ∧
    (listPoliciesParams 1 50).limit = 50 ∧
    (listUserPoliciesParams 1 50 (some false)).limit = 50 ∧
    (listConnectionsParams 1 50).limit = 50 ∧
    (listVendorsParams 1 50).limit = 50 ∧
    (listDevicesParams 1 50).limit = 50 :=
  ⟨fun _ => rfl, fun _ => rfl, fun _ => rfl, fun _ => rfl, fun _ => rfl,
   rfl, rfl, rfl, rfl, rfl⟩

/-! ### get_personnel_by_email (client.py lines 229-234) -/

/-- The response to `GET /public/personnel?email=...` as the lookup reads
it: `result.get("data")` is a one-argument get, so absent and null
coincide. -/
structure PersonnelLookupResponse where
  data : Option (List Personnel)
deriving DecidableEq

/-- `DrataClient.get_personnel_by_email`: `if result.get("data"):` (truthy
means a non-empty list) return `result["data"][0]`, else raise
`ValueError(f"Personnel not found: {email}")`. -/
def getPersonnelByEmail (result : PersonnelLookupResponse) (email : String) :
    Except String Personnel :=
  match result.data with
  | some (p :: _) => .ok p
  | _ => .error ("Personnel not found: " ++ email)

/-- C9: `get_personnel_by_email` returns the first record of the data list
whenever it is non-empty, and raises a distinguishable not-found error
(never confusable with a successful result) whenever the data list is
empty or absent; by contrast the control-by-code lookup surfaces not-found
as a normal result record carrying an error field. -/
theorem get_personnel_by_email_spec (result : PersonnelLookupResponse)
    (email : String) :
    (∀ p rest, result.data = some (p :: rest) →
       getPersonnelByEmail result email = .ok p) ∧
    ((result.data = some [] ∨ result.data = none) →
       getPersonnelByEmail result email =
         .error ("Personnel not found: " ++ email)) ∧
    (∀ p : Personnel,
       (Except.error ("Personnel not found: " ++ email) :
          Except String Personnel) ≠ .ok p) ∧
    (∀ (u : Upstream) (code : String),
       findExactControl code (u.controlSearchPage code).data = none →
       getControlDetails u code =
         .errorResult ("Control " ++ code ++ " not found")) := by
  refine ⟨?_, ?_, ?_, ?_⟩
  · intro p rest h
    simp [getPersonnelByEmail, h]
  · rintro (h | h) <;> simp [getPersonnelByEmail, h]
  · intro p h
    cases h
  · intro u code h
    simp only [getControlDetails, h]

def pAlice : Personnel :=
  { id := some 1,
    user := some { email := some "a@example.com", firstName := some "A",
                   lastName := some "B", name := none },
    employmentStatus := some "CURRENT_EMPLOYEE", devicesCount := some 1,
    devicesFailingComplianceCount := some 0, startDate := none }

theorem get_personnel_by_email_spec_witness :
    getPersonnelByEmail ⟨some [pAlice]⟩ "a@example.com" = .ok pAlice :=
  (get_personnel_by_email_spec ⟨some [pAlice]⟩ "a@example.com").1 pAlice [] rfl

/-! ### list_failing_monitors (server.py lines 269-297) -/

structure FailingMonitorEntry where
  id : Option Nat
  name : Option String
  priority : Option String
  lastCheck : Option String
  description : String
  controls : List (Option String)
deriving DecidableEq

/-- One element of the `failing_monitors` comprehension:
`m.get("description", "")[:200]` (server.py line 292) raises `TypeError`
when `description` is present but null. -/
def failingMonitorEntry (m : Monitor) : Except String FailingMonitorEntry :=
  match m.description.getOr "" with
  | none => .error "TypeError: NoneType object is not subscriptable"
  | some d =>
    .ok { id := m.id, name := m.name, priority := m.priority,
          lastCheck := m.lastCheck, description := pySlice d 200,
          controls := m.controls.map ControlRef.code }

def buildFailingEntries : List Monitor → Except String (List FailingMonitorEntry)
  | [] => .ok []
  | m :: rest => do
    let e ← failingMonitorEntry m
    let es ← buildFailingEntries rest
    pure (e :: es)

structure FailingMonitorsResult where
  total_failed : Nat
  message : String
  failing_monitors : List FailingMonitorEntry
deriving DecidableEq

/-- `list_failing_monitors`, as a function of the combined monitor list
produced by the full-collection fetch (`client.list_all_monitors()`). -/
def listFailingMonitorsTool (monitors : List Monitor) :
    Except String FailingMonitorsResult := do
  let failed := monitors.filter (fun m => m.checkResultStatus == some "FAILED")
  let entries ← buildFailingEntries failed
  pure { total_failed := failed.length
         message :=
           if failed.isEmpty then "🟢 All tests passing"
           else "🔴 " ++ toString failed.length ++ " tests failing"
         failing_monitors := entries }

def nullDescMonitor : Monitor :=
  { id := some 5, name := some "broken", description := .null,
    checkResultStatus := some "FAILED", checkStatus := none, priority := none,
    lastCheck := none, controls := [] }

def nullPolicyAssignment : UserPolicyAssignment :=
  { id := some 7, policy := .null, user := .val emptyPUser, createdAt := none }

/-- C7 counterexample: a nested field present with a null value IS turned
into an error by the tool layer.  An unacknowledged assignment whose
`policy` field is null makes `list_pending_policy_acknowledgments` raise
(`None.get(...)` → AttributeError), and a FAILED monitor whose
`description` field is null makes `list_failing_monitors` raise
(`None[:200]` → TypeError). -/
theorem null_field_error_cex :
    listPendingPolicyAcknowledgmentsTool 50
        (fun _ => ⟨[nullPolicyAssignment], some 1⟩) =
      .error "AttributeError: NoneType object has no attribute get" ∧
    listFailingMonitorsTool [nullDescMonitor] =
      .error "TypeError: NoneType object is not subscriptable" := by
  constructor <;> rfl

theorem exceptBindOk {α β γ : Type} (x : Except γ α) (f : α → Except γ β)
    (h : ∃ a, x = .ok a) (hf : ∀ a, ∃ b, f a = .ok b) :
    ∃ b, x >>= f = .ok b := by
  obtain ⟨a, rfl⟩ := h
  obtain ⟨b, hb⟩ := hf a
  exact ⟨b, hb⟩

theorem JField_getOr_isSome {α : Type} (f : JField α) (d : α)
    (h : f ≠ JField.null) : ∃ a, f.getOr d = some a := by
  cases f with
  | absent => exact ⟨d, rfl⟩
  | null => exact absurd rfl h
  | val a => exact ⟨a, rfl⟩

theorem pendingEntry_ok (a : UserPolicyAssignment)
    (hp : a.policy ≠ JField.null) (hu : a.user ≠ JField.null) :
    ∃ e, pendingEntry a = .ok e := by
  obtain ⟨i, pol, usr, created⟩ := a
  cases pol with
  | null => exact absurd rfl hp
  | absent =>
    cases usr with
    | null => exact absurd rfl hu
    | absent => exact ⟨_, rfl⟩
    | val u => exact ⟨_, rfl⟩
  | val p =>
    cases usr with
    | null => exact absurd rfl hu
    | absent => exact ⟨_, rfl⟩
    | val u => exact ⟨_, rfl⟩

theorem buildPendingEntries_ok (l : List UserPolicyAssignment)
    (h : ∀ a ∈ l, a.policy ≠ JField.null ∧ a.user ≠ JField.null) :
    ∃ es, buildPendingEntries l = .ok es := by
  induction l with
  | nil => exact ⟨[], rfl⟩
  | cons a rest ih =>
    obtain ⟨e, he⟩ := pendingEntry_ok a
      (h a (List.mem_cons_self a rest)).1 (h a (List.mem_cons_self a rest)).2
    obtain ⟨es, hes⟩ := ih (fun x hx => h x (List.mem_cons_of_mem a hx))
    exact ⟨e :: es, by simp only [buildPendingEntries, he, hes]; rfl⟩

theorem failingMonitorEntry_ok (m : Monitor) (h : m.description ≠ JField.null) :
    ∃ e, failingMonitorEntry m = .ok e := by
  obtain ⟨i, n, desc, st, cs, pr, lc, ctrls⟩ := m
  cases desc with
  | null => exact absurd rfl h
  | absent => exact ⟨_, rfl⟩
  | val d => exact ⟨_, rfl⟩

theorem buildFailingEntries_ok (l : List Monitor)
    (h : ∀ m ∈ l, m.description ≠ JField.null) :
    ∃ es, buildFailingEntries l = .ok es := by
  induction l with
  | nil => exact ⟨[], rfl⟩
  | cons m rest ih =>
    obtain ⟨e, he⟩ := failingMonitorEntry_ok m (h m (List.mem_cons_self m rest))
    obtain ⟨es, hes⟩ := ih (fun x hx => h x (List.mem_cons_of_mem m hx))
    exact ⟨e :: es, by simp only [buildFailingEntries, he, hes]; rfl⟩

/-- C7 (amended): tool-layer field access tolerates ABSENT fields and
substitutes empty or zero defaults — records with missing (as opposed to
null-valued) nested fields are never turned into errors:
`list_failing_monitors` and `list_pending_policy_acknowledgments` return
normally on any input whose two-argument-get fields are not null, and the
defaults substituted for absent fields are empty.  (A field present with a
null value can still raise; see the counterexample.) -/
theorem absent_fields_tolerated :
    (∀ monitors : List Monitor,
       (∀ m ∈ monitors, m.description ≠ JField.null) →
       ∃ res, listFailingMonitorsTool monitors = .ok res) ∧
    (∀ (api : UserPolicyParams → PageResponse UserPolicyAssignment)
       (limit : Nat),
       (∀ a ∈ (api (listUserPoliciesParams 1 50 (some false))).data,
          a.policy ≠ JField.null ∧ a.user ≠ JField.null) →
       ∃ res, listPendingPolicyAcknowledgmentsTool limit api = .ok res) ∧
    (∀ m : Monitor, m.description = JField.absent →
       ∃ e, failingMonitorEntry m = .ok e ∧ e.description = "") ∧
    (∀ (i : Option Nat) (created : Option String),
       pendingEntry
         { id := i, policy := JField.absent, user := JField.absent,
           createdAt := created } =
       .ok { id := i, policyName := none, policyVersion := none,
             userEmail := none, userName := none, assignedAt := created }) := by
  refine ⟨?_, ?_, ?_, ?_⟩
  · intro monitors h
    have hfiltered : ∀ m ∈ monitors.filter
        (fun m => m.checkResultStatus == some "FAILED"),
        m.description ≠ JField.null := by
      intro m hm
      exact h m (List.mem_filter.1 hm).1
    obtain ⟨es, hes⟩ := buildFailingEntries_ok _ hfiltered
    exact exceptBindOk _ _ ⟨es, hes⟩ (fun entries => ⟨_, rfl⟩)
  · intro api limit h
    obtain ⟨es, hes⟩ := buildPendingEntries_ok _ h
    exact exceptBindOk _ _ ⟨es, hes⟩ (fun entries => ⟨_, rfl⟩)
  · intro m h
    obtain ⟨i, n, desc, st, cs, pr, lc, ctrls⟩ := m
    cases desc with
    | null => cases h
    | val d => cases h
    | absent => exact ⟨_, rfl, rfl⟩
  · intro i created
    rfl

theorem absent_fields_tolerated_witness :
    ∃ res, listFailingMonitorsTool [blankMonitor, matchMonitor] = .ok res :=
  absent_fields_tolerated.1 [blankMonitor, matchMonitor]
    (by intro m hm; fin_cases hm <;> decide)
